import Mathlib

/-!
Shallow embedding of the unified gesture handler of the bible-nav
repository (`src/unnamed/part_001`, class `GestureHandler` and attachment
function `createGestureHandler`), together with the interaction thresholds
of `src/modules/constants.js`.

Coordinates and timestamps are JavaScript numbers that the program only
adds, subtracts and compares; they are embedded as `Int`.  The single
outstanding `setTimeout` handle (`state.tapTimeout`) is embedded as an
`Option TapTimer` carrying the time at which the host is first allowed to
fire the deferred callback and the captured `clientX`.  The host event
loop is embedded by `fireDue`: a timer whose due time has been reached
fires before the dispatch of any later input event, which is the ordering
the browser event loop guarantees.
-/

namespace BibleNav

/-- Threshold `SWIPE_THRESHOLD = 20` from `src/modules/constants.js`. -/
def SWIPE_THRESHOLD : Int := 20

/-- Threshold `DRAG_THRESHOLD = 50` from `src/modules/constants.js`. -/
def DRAG_THRESHOLD : Int := 50

/-- Threshold `MOVEMENT_DETECTION_THRESHOLD = 5` from `src/modules/constants.js`. -/
def MOVEMENT_DETECTION_THRESHOLD : Int := 5

/-- Delay `TAP_DELAY = 300` from `src/modules/constants.js`; it is both the
double-tap window and the single-tap confirmation delay. -/
def TAP_DELAY : Int := 300

/-- Embedding of one outstanding `setTimeout` handle scheduled by the
single-tap path of `handleEnd`: the earliest host time at which the
deferred callback may run, and the `coords.clientX` captured by the
closure. -/
structure TapTimer where
  fireAt : Int
  clientX : Int
  deriving Repr, DecidableEq

/-- Embedding of the `GestureState` record created by
`GestureHandler.createInitialState`. -/
structure GestureState where
  startX : Int
  startY : Int
  lastX : Int
  accumulatedDistance : Int
  isDragging : Bool
  hasActuallyDragged : Bool
  lastTapTime : Int
  tapTimeout : Option TapTimer
  deriving Repr, DecidableEq

/-- Which of the four callbacks are registered on the handler
(`GestureHandler.handlers`, populated by `setHandlers`).  `true` means the
corresponding callback function is non-null. -/
structure Handlers where
  onSwipe : Bool
  onDrag : Bool
  onTap : Bool
  onDoubleTap : Bool
  deriving Repr, DecidableEq

/-- Handler set installed by `createGestureHandler` in
`src/modules/eventHandlers.js`: all four callbacks registered. -/
def allHandlers : Handlers :=
  { onSwipe := true, onDrag := true, onTap := true, onDoubleTap := true }

/-- One observable callback invocation performed by the gesture code. -/
inductive Callback
  | swipe (dir : Int)
  | drag (dir : Int)
  | tap (x : Int)
  | doubleTap
  deriving Repr, DecidableEq

/-- Return value of `handleMove` as seen by the event listeners.  The
JavaScript method returns `null`, or `{ preventDefault: true }`, or — when
a swipe fires and an `onSwipe` handler is registered — whatever that
handler returned.  The `onSwipe` registered by
`src/modules/eventHandlers.js` is a block-bodied arrow function, so its
return value is `undefined`; `swipeRet` embeds that value. -/
inductive MoveRes
  | notHandled
  | suppress
  | swipeRet
  deriving Repr, DecidableEq

/-- Whether a `handleMove` return value signals default-behavior
suppression to the listener, which tests `result && result.preventDefault`
(the `touchmove` listener of `createGestureHandler`).  `swipeRet` embeds
`undefined`, which fails that test. -/
def signalsSuppression : MoveRes → Bool
  | MoveRes.suppress => true
  | _ => false

/-- Classification string returned by `handleEnd`. -/
inductive GKind
  | drag
  | doubleTap
  | tap
  deriving Repr, DecidableEq

/-- State built by `GestureHandler.createInitialState`; `reset` clears any
pending timer and installs a fresh copy of this record. -/
def initialState : GestureState :=
  { startX := 0, startY := 0, lastX := 0, accumulatedDistance := 0,
    isDragging := false, hasActuallyDragged := false, lastTapTime := 0,
    tapTimeout := none }

/-- Embedding of `GestureHandler.handleStart` (part_001 lines 97-106): it
records the start coordinates, activates the gesture and clears the
movement flag and accumulator.  It touches neither `lastTapTime` nor
`tapTimeout`. -/
def handleStart (s : GestureState) (cx cy : Int) : GestureState :=
  { s with startX := cx, startY := cy, lastX := cx, accumulatedDistance := 0,
           isDragging := true, hasActuallyDragged := false }

/-- Embedding of `GestureHandler.handleMove` (part_001 lines 113-146).
Returns the updated state, the callbacks invoked during the call, and the
value returned to the listener. -/
def handleMove (h : Handlers) (s : GestureState) (cx cy : Int) :
    GestureState × List Callback × MoveRes :=
  if s.isDragging = false then (s, [], MoveRes.notHandled)
  else
    let deltaX := cx - s.startX
    let deltaY := cy - s.startY
    let s1 :=
      if MOVEMENT_DETECTION_THRESHOLD < |deltaX| ∨
         MOVEMENT_DETECTION_THRESHOLD < |deltaY| then
        { s with hasActuallyDragged := true }
      else s
    if |deltaY| < |deltaX| then
      let movement := cx - s1.lastX
      let acc := s1.accumulatedDistance + movement
      if SWIPE_THRESHOLD ≤ |acc| then
        let direction : Int := if 0 < acc then -1 else 1
        if h.onSwipe then
          ({ s1 with accumulatedDistance := 0, lastX := cx },
           [Callback.swipe direction], MoveRes.swipeRet)
        else
          ({ s1 with accumulatedDistance := 0, lastX := cx },
           [], MoveRes.suppress)
      else
        ({ s1 with accumulatedDistance := acc, lastX := cx },
         [], MoveRes.suppress)
    else
      (s1, [], MoveRes.notHandled)

/-- Embedding of `GestureHandler.handleEnd` (part_001 lines 153-207).
`now` is `new Date().getTime()` at processing time.  The drag path calls
`reset()` (clearing any pending timer) and then writes
`lastTapTime = currentTime`; the double-tap path clears the pending timer,
resets, and writes `lastTapTime`; the single-tap path clears any existing
timer and schedules a new one due `TAP_DELAY` later. -/
def handleEnd (h : Handlers) (s : GestureState) (cx _cy clientX now : Int) :
    GestureState × List Callback × Option GKind :=
  if s.isDragging = false then (s, [], none)
  else
    let timeSinceLastTap := now - s.lastTapTime
    if s.hasActuallyDragged then
      let dragDistance := cx - s.startX
      let cbs :=
        if DRAG_THRESHOLD < |dragDistance| ∧ h.onDrag = true then
          [Callback.drag (if 0 < dragDistance then -1 else 1)]
        else []
      ({ initialState with lastTapTime := now }, cbs, some GKind.drag)
    else if timeSinceLastTap < TAP_DELAY ∧ 0 < timeSinceLastTap then
      ({ initialState with lastTapTime := now },
       if h.onDoubleTap then [Callback.doubleTap] else [],
       some GKind.doubleTap)
    else
      ({ s with tapTimeout := some { fireAt := now + TAP_DELAY, clientX := clientX },
                lastTapTime := now, isDragging := false,
                accumulatedDistance := 0 },
       [], some GKind.tap)

/-- Embedding of the host firing a due `setTimeout` callback: the deferred
closure runs `onTap(coords.clientX)` when registered and then nulls out
`state.tapTimeout`.  `clearTimeout` is embedded by the paths that set
`tapTimeout` to `none` before this could run. -/
def fireDue (h : Handlers) (s : GestureState) (now : Int) :
    GestureState × List Callback :=
  match s.tapTimeout with
  | some tm =>
      if tm.fireAt ≤ now then
        ({ s with tapTimeout := none },
         if h.onTap then [Callback.tap tm.clientX] else [])
      else (s, [])
  | none => (s, [])

/-- Raw input events delivered to one `GestureHandler`, each dispatched at
a host timestamp; `idle` is a point in time at which no input arrives but
a due timer may fire. -/
inductive GEvent
  | start (x y : Int)
  | move (x y : Int)
  | finish (x y clientX : Int)
  | idle
  deriving Repr, DecidableEq

/-- One event-loop step at host time `t`: a due timer fires first, then
the input event is dispatched to the corresponding handler method. -/
def step (h : Handlers) (s : GestureState) (t : Int) (e : GEvent) :
    GestureState × List Callback :=
  let p := fireDue h s t
  match e with
  | GEvent.start x y => (handleStart p.1 x y, p.2)
  | GEvent.move x y =>
      let m := handleMove h p.1 x y
      (m.1, p.2 ++ m.2.1)
  | GEvent.finish x y cX =>
      let m := handleEnd h p.1 x y cX t
      (m.1, p.2 ++ m.2.1)
  | GEvent.idle => p

/-- Run a timed event sequence through the handler, collecting every
callback invocation in order. -/
def run (h : Handlers) (s : GestureState) :
    List (Int × GEvent) → GestureState × List Callback
  | [] => (s, [])
  | (t, e) :: rest =>
      let p := step h s t e
      let q := run h p.1 rest
      (q.1, p.2 ++ q.2)

/-- Run a sequence of bare move samples through `handleMove` only
(part_001 lines 113-146), collecting the callbacks invoked. -/
def movesRun (h : Handlers) (s : GestureState) :
    List (Int × Int) → GestureState × List Callback
  | [] => (s, [])
  | (x, y) :: rest =>
      let m := handleMove h s x y
      let q := movesRun h m.1 rest
      (q.1, m.2.1 ++ q.2)

/-- State owned by one `createGestureHandler` attachment: the gesture
state plus `handler.lastTouchTime`, the timestamp of the most recent
`touchend` (initially 0). -/
structure AttachState where
  gs : GestureState
  lastTouchTime : Int
  deriving Repr, DecidableEq

/-- DOM events handled by the listeners installed by
`createGestureHandler` (part_001 lines 233-290). -/
inductive DomEvent
  | touchstart (x y : Int)
  | touchmove (x y : Int)
  | touchend (x y clientX : Int)
  | mousedown (x y : Int)
  | mousemove (x y : Int)
  | mouseup (x y clientX : Int)
  | dblclick
  deriving Repr, DecidableEq

/-- Embedding of the seven listeners of `createGestureHandler`.  `t` is
`Date.now()` at dispatch; `ign` is the verdict of the optional
`shouldIgnoreEvent` predicate on this event.  The mouse `down`, `up` and
`dblclick` listeners return early when `t - lastTouchTime < 500`
(synthetic-event suppression); `mousemove` has no such guard.  The
`dblclick` listener invokes `callbacks.onDoubleTap` directly without
consulting the gesture state. -/
def dispatch (h : Handlers) (a : AttachState) (t : Int) (e : DomEvent)
    (ign : Bool) : AttachState × List Callback :=
  if ign then (a, [])
  else
    match e with
    | DomEvent.touchstart x y => ({ a with gs := handleStart a.gs x y }, [])
    | DomEvent.touchmove x y =>
        let m := handleMove h a.gs x y
        ({ a with gs := m.1 }, m.2.1)
    | DomEvent.touchend x y cX =>
        let m := handleEnd h a.gs x y cX t
        ({ gs := m.1, lastTouchTime := t }, m.2.1)
    | DomEvent.mousedown x y =>
        if t - a.lastTouchTime < 500 then (a, [])
        else ({ a with gs := handleStart a.gs x y }, [])
    | DomEvent.mousemove x y =>
        let m := handleMove h a.gs x y
        ({ a with gs := m.1 }, m.2.1)
    | DomEvent.mouseup x y cX =>
        if t - a.lastTouchTime < 500 then (a, [])
        else
          let m := handleEnd h a.gs x y cX t
          ({ a with gs := m.1 }, m.2.1)
    | DomEvent.dblclick =>
        if t - a.lastTouchTime < 500 then (a, [])
        else (a, if h.onDoubleTap then [Callback.doubleTap] else [])

/-- One event-loop step at an attachment: a due tap timer fires first,
then the DOM event is dispatched to its listener. -/
def stepA (h : Handlers) (a : AttachState) (t : Int) (e : DomEvent)
    (ign : Bool) : AttachState × List Callback :=
  let p := fireDue h a.gs t
  let q := dispatch h { a with gs := p.1 } t e ign
  (q.1, p.2 ++ q.2)

/-- Run a timed DOM event sequence through an attachment; no event is
vetoed by `shouldIgnoreEvent`. -/
def runA (h : Handlers) (a : AttachState) :
    List (Int × DomEvent) → AttachState × List Callback
  | [] => (a, [])
  | (t, e) :: rest =>
      let p := stepA h a t e false
      let q := runA h p.1 rest
      (q.1, p.2 ++ q.2)

/-- Embedding of `handleMove` under the exception semantics of
JavaScript: when `thr` is `true`, the `onSwipe` callback throws.  The
accumulator reset and the `lastX` update precede the call (part_001 lines
133-137), so they survive the throw; the boolean result records whether an
exception propagated out of the method. -/
def handleMoveThrow (h : Handlers) (thr : Bool) (s : GestureState)
    (cx cy : Int) : GestureState × List Callback × Bool :=
  if s.isDragging = false then (s, [], false)
  else
    let deltaX := cx - s.startX
    let deltaY := cy - s.startY
    let s1 :=
      if MOVEMENT_DETECTION_THRESHOLD < |deltaX| ∨
         MOVEMENT_DETECTION_THRESHOLD < |deltaY| then
        { s with hasActuallyDragged := true }
      else s
    if |deltaY| < |deltaX| then
      let movement := cx - s1.lastX
      let acc := s1.accumulatedDistance + movement
      if SWIPE_THRESHOLD ≤ |acc| then
        let direction : Int := if 0 < acc then -1 else 1
        if h.onSwipe then
          ({ s1 with accumulatedDistance := 0, lastX := cx },
           [Callback.swipe direction], thr)
        else
          ({ s1 with accumulatedDistance := 0, lastX := cx }, [], false)
      else
        ({ s1 with accumulatedDistance := acc, lastX := cx }, [], false)
    else
      (s1, [], false)

/-- Embedding of `handleEnd` under the exception semantics of JavaScript:
when `thr` is `true`, the invoked callback throws.  In the drag path
`onDrag` is called before `reset()` (part_001 lines 164-170), so a throw
leaves the state exactly as it was; in the double-tap path the pending
timer is cleared before `onDoubleTap` but `reset()` runs only after it;
the single-tap path invokes no callback synchronously.  The boolean
result records whether an exception propagated out of the method. -/
def handleEndThrow (h : Handlers) (thr : Bool) (s : GestureState)
    (cx _cy clientX now : Int) : GestureState × List Callback × Bool :=
  if s.isDragging = false then (s, [], false)
  else
    let timeSinceLastTap := now - s.lastTapTime
    if s.hasActuallyDragged then
      let dragDistance := cx - s.startX
      if DRAG_THRESHOLD < |dragDistance| ∧ h.onDrag = true then
        let d : Int := if 0 < dragDistance then -1 else 1
        if thr then (s, [Callback.drag d], true)
        else ({ initialState with lastTapTime := now }, [Callback.drag d], false)
      else ({ initialState with lastTapTime := now }, [], false)
    else if timeSinceLastTap < TAP_DELAY ∧ 0 < timeSinceLastTap then
      if h.onDoubleTap then
        if thr then ({ s with tapTimeout := none }, [Callback.doubleTap], true)
        else ({ initialState with lastTapTime := now }, [Callback.doubleTap], false)
      else ({ initialState with lastTapTime := now }, [], false)
    else
      ({ s with tapTimeout := some { fireAt := now + TAP_DELAY, clientX := clientX },
                lastTapTime := now, isDragging := false,
                accumulatedDistance := 0 },
       [], false)

end BibleNav

namespace BibleNav

/-! Helper lemmas shared by several proofs. -/

/-- Lemma: a handler with no pending timer lets `fireDue` do nothing. -/
theorem fireDue_none (h : Handlers) (s : GestureState) (now : Int)
    (hT : s.tapTimeout = none) : fireDue h s now = (s, []) := by
  simp [fireDue, hT]

/-- Lemma: a pending timer that is not yet due does not fire. -/
theorem fireDue_notDue (h : Handlers) (s : GestureState) (now : Int)
    (tm : TapTimer) (hT : s.tapTimeout = some tm) (hLt : now < tm.fireAt) :
    fireDue h s now = (s, []) := by
  simp [fireDue, hT, not_le.mpr hLt]

/-- Lemma: the single-tap path of `handleEnd` schedules a deferred tap. -/
theorem handleEnd_singleTap (h : Handlers) (s : GestureState)
    (cx cy cX now : Int) (hAct : s.isDragging = true)
    (hMoved : s.hasActuallyDragged = false)
    (hFar : ¬(now - s.lastTapTime < TAP_DELAY ∧ 0 < now - s.lastTapTime)) :
    handleEnd h s cx cy cX now =
      ({ s with tapTimeout := some { fireAt := now + TAP_DELAY, clientX := cX },
                lastTapTime := now, isDragging := false,
                accumulatedDistance := 0 }, [], some GKind.tap) := by
  simp only [handleEnd, hAct, hMoved]
  simp [hFar]
  intro h1
  by_contra h2
  exact hFar ⟨h1, by omega⟩

/-- Lemma: the double-tap path of `handleEnd` fires `onDoubleTap` and resets. -/
theorem handleEnd_doubleTap (h : Handlers) (s : GestureState)
    (cx cy cX now : Int) (hAct : s.isDragging = true)
    (hMoved : s.hasActuallyDragged = false)
    (hLo : 0 < now - s.lastTapTime) (hHi : now - s.lastTapTime < TAP_DELAY) :
    handleEnd h s cx cy cX now =
      ({ initialState with lastTapTime := now },
       if h.onDoubleTap then [Callback.doubleTap] else [],
       some GKind.doubleTap) := by
  simp [handleEnd, hAct, hMoved, hLo, hHi]

/-- Lemma: a vertically dominant move invokes no callback and leaves the
start coordinates, the accumulator, the last-sample coordinate and the
active flag unchanged. -/
theorem handleMove_vertical (h : Handlers) (s : GestureState) (cx cy : Int)
    (hV : |cx - s.startX| ≤ |cy - s.startY|) :
    (handleMove h s cx cy).2.1 = [] ∧
    (handleMove h s cx cy).1.startX = s.startX ∧
    (handleMove h s cx cy).1.startY = s.startY ∧
    (handleMove h s cx cy).1.accumulatedDistance = s.accumulatedDistance ∧
    (handleMove h s cx cy).1.lastX = s.lastX ∧
    (handleMove h s cx cy).1.isDragging = s.isDragging := by
  have hNH : ¬(|cy - s.startY| < |cx - s.startX|) := not_lt.mpr hV
  by_cases hD : s.isDragging = false
  · simp [handleMove, hD]
  · by_cases hM : MOVEMENT_DETECTION_THRESHOLD < |cx - s.startX| ∨
        MOVEMENT_DETECTION_THRESHOLD < |cy - s.startY|
    · simp [handleMove, hD, hM, hNH]
    · simp [handleMove, hD, hM, hNH]

/-- C1 (amended): `handleStart` does not cancel a pending single-tap timer
— it leaves `state.tapTimeout` (and `lastTapTime`) untouched, so a tap
pending when a new gesture starts stays outstanding and can still fire
`onTap` for the abandoned gesture; the pending tap is only cleared later,
by the `handleEnd` of the new gesture or by the timer itself firing. -/
theorem C1_start_keeps_pending_tap (s : GestureState) (cx cy : Int) :
    (handleStart s cx cy).tapTimeout = s.tapTimeout ∧
    (handleStart s cx cy).lastTapTime = s.lastTapTime := ⟨rfl, rfl⟩

/-- C1 counterexample: a tap ends at time 1000 (deferred `onTap` due at
1300), a new gesture starts at 1100 and is still in progress at 1400;
the pending timer was not cancelled by `handleStart`, so `onTap 42`
fires for the abandoned gesture. -/
theorem C1_counterexample :
    (run allHandlers initialState
      [(900, GEvent.start 0 0), (1000, GEvent.finish 0 0 42),
       (1100, GEvent.start 0 0), (1400, GEvent.idle)]).2 =
      [Callback.tap 42] := by decide

/-- C4 (amended): within the gesture handler each single call invokes at
most one callback (`handleEnd`, `handleMove` and a firing timer each
produce at most one invocation), so each resolved gesture triggers each
callback at most once through the recognizer itself; but the `dblclick`
listener of `createGestureHandler` invokes `onDoubleTap` directly in
addition to the `mouseup`-driven `handleEnd`, so a desktop double-click
fires `onDoubleTap` twice (see the counterexample). -/
theorem C4_per_call_at_most_one (h : Handlers) (s : GestureState)
    (cx cy cX now : Int) :
    (handleEnd h s cx cy cX now).2.1.length ≤ 1 ∧
    (handleMove h s cx cy).2.1.length ≤ 1 ∧
    (fireDue h s now).2.length ≤ 1 := by
  refine ⟨?_, ?_, ?_⟩
  · simp only [handleEnd]
    repeat' split
    all_goals simp
  · simp only [handleMove]
    repeat' split
    all_goals simp
  · simp only [fireDue]
    repeat' split
    all_goals simp

/-- C4 counterexample: a desktop double-click (mousedown/up at 1000/1010,
mousedown/up at 1050/1060, `dblclick` at 1061, no touch activity) makes
`onDoubleTap` fire twice — once from the double-tap path of `handleEnd`
on the second `mouseup`, once from the `dblclick` listener. -/
theorem C4_counterexample :
    (runA allHandlers { gs := initialState, lastTouchTime := 0 }
      [(1000, DomEvent.mousedown 0 0), (1010, DomEvent.mouseup 0 0 5),
       (1050, DomEvent.mousedown 0 0), (1060, DomEvent.mouseup 0 0 5),
       (1061, DomEvent.dblclick)]).2 =
      [Callback.doubleTap, Callback.doubleTap] := by decide

/-- C6: a mouse-channel `mousedown`, `mouseup` or `dblclick` dispatched
within 500 ms of the most recent touch end is ignored entirely — the
attachment state (gesture state and `lastTouchTime`) is unchanged and no
callback fires, whatever the `shouldIgnoreEvent` verdict. -/
theorem C6_mouse_suppression (h : Handlers) (a : AttachState) (t : Int)
    (ign : Bool) (x y cX : Int) (hWin : t - a.lastTouchTime < 500) :
    dispatch h a t (DomEvent.mousedown x y) ign = (a, []) ∧
    dispatch h a t (DomEvent.mouseup x y cX) ign = (a, []) ∧
    dispatch h a t DomEvent.dblclick ign = (a, []) := by
  cases ign <;> simp [dispatch, hWin]

/-- Attachment state used to witness C6: last touch ended at time 1000. -/
def a6 : AttachState := { gs := initialState, lastTouchTime := 1000 }

/-- C6 witness: at time 1200, 200 ms after the touch end recorded in
`a6`, all three mouse-channel events are dropped. -/
theorem C6_mouse_suppression_witness :
    ((1200 : Int) - a6.lastTouchTime < 500) ∧
    (dispatch allHandlers a6 1200 (DomEvent.mousedown 3 4) false = (a6, []) ∧
     dispatch allHandlers a6 1200 (DomEvent.mouseup 3 4 9) false = (a6, []) ∧
     dispatch allHandlers a6 1200 DomEvent.dblclick false = (a6, [])) :=
  ⟨by decide, C6_mouse_suppression allHandlers a6 1200 false 3 4 9 (by decide)⟩

/-- C10: a gesture that exceeded the movement-detection threshold
(`hasActuallyDragged = true`) but whose net horizontal displacement is at
most `DRAG_THRESHOLD` ends with no callback at all: `handleEnd` still
classifies it as a drag, fully resets the state (clearing any pending tap
timer) and records the end time in `lastTapTime`. -/
theorem C10_small_drag_no_callback (h : Handlers) (s : GestureState)
    (cx cy cX now : Int) (hAct : s.isDragging = true)
    (hMoved : s.hasActuallyDragged = true)
    (hSmall : |cx - s.startX| ≤ DRAG_THRESHOLD) :
    handleEnd h s cx cy cX now =
      ({ initialState with lastTapTime := now }, [], some GKind.drag) := by
  have h1 : ¬(DRAG_THRESHOLD < |cx - s.startX|) := not_lt.mpr hSmall
  simp [handleEnd, hAct, hMoved, h1]

/-- Gesture state used to witness C10: an active gesture that moved
beyond the detection threshold, with a pending tap timer outstanding,
ending 30 px right of its start. -/
def s10 : GestureState :=
  { startX := 0, startY := 0, lastX := 30, accumulatedDistance := 4,
    isDragging := true, hasActuallyDragged := true, lastTapTime := 100,
    tapTimeout := some { fireAt := 400, clientX := 8 } }

/-- C10 witness: ending `s10` at x = 30 (net displacement 30 ≤ 50) at
time 1000 invokes nothing, resets everything and records the end time. -/
theorem C10_small_drag_no_callback_witness :
    (s10.isDragging = true ∧ s10.hasActuallyDragged = true ∧
     |(30 : Int) - s10.startX| ≤ DRAG_THRESHOLD) ∧
    handleEnd allHandlers s10 30 0 8 1000 =
      ({ initialState with lastTapTime := 1000 }, [], some GKind.drag) :=
  ⟨⟨rfl, rfl, by decide⟩,
   C10_small_drag_no_callback allHandlers s10 30 0 8 1000 rfl rfl (by decide)⟩


/-- C2 (amended): a horizontally dominant move during an active gesture
signals default-behavior suppression exactly when no swipe fires during
the call with an `onSwipe` handler registered; when a swipe fires,
`handleMove` returns the handler's own return value — for the handlers
registered by `src/modules/eventHandlers.js` that value is `undefined`,
which the listener does not treat as a suppression signal.  Vertically
dominant or inactive moves never signal suppression. -/
theorem C2_suppression_iff (h : Handlers) (s : GestureState) (cx cy : Int) :
    ((handleMove h s cx cy).2.2 = MoveRes.suppress ↔
      (s.isDragging = true ∧ |cy - s.startY| < |cx - s.startX| ∧
       ¬(SWIPE_THRESHOLD ≤ |s.accumulatedDistance + (cx - s.lastX)| ∧
         h.onSwipe = true))) ∧
    (signalsSuppression (handleMove h s cx cy).2.2 = true ↔
      (handleMove h s cx cy).2.2 = MoveRes.suppress) := by
  have hsup : ∀ r : MoveRes, signalsSuppression r = true ↔ r = MoveRes.suppress := by
    intro r
    cases r <;> simp [signalsSuppression]
  refine ⟨?_, hsup _⟩
  by_cases h1 : s.isDragging = false
  · simp [handleMove, h1]
  · have h1x : s.isDragging = true := by simpa using h1
    by_cases h2 : |cy - s.startY| < |cx - s.startX|
    · by_cases h3 : MOVEMENT_DETECTION_THRESHOLD < |cx - s.startX| ∨
          MOVEMENT_DETECTION_THRESHOLD < |cy - s.startY|
      all_goals by_cases h4 : SWIPE_THRESHOLD ≤ |s.accumulatedDistance + (cx - s.lastX)|
      all_goals by_cases h5 : h.onSwipe = true
      all_goals simp [handleMove, h1x, h2, h3, h4, h5]
    · simp [handleMove, h1x, h2]

/-- Gesture state used for the C2 counterexample: an active gesture with
15 px already accumulated, 5 px short of the swipe threshold. -/
def s2c : GestureState :=
  { startX := 0, startY := 0, lastX := 0, accumulatedDistance := 15,
    isDragging := true, hasActuallyDragged := false, lastTapTime := 0,
    tapTimeout := none }

/-- C2 counterexample: a horizontally dominant move of an active gesture
that fires a swipe returns the callback's return value, not a suppression
signal — refuting the claim that every horizontally dominant move,
including one on which a swipe fires, signals default-behavior
suppression. -/
theorem C2_counterexample :
    |(0 : Int) - s2c.startY| < |(10 : Int) - s2c.startX| ∧
    (handleMove allHandlers s2c 10 0).2.1 = [Callback.swipe (-1)] ∧
    (handleMove allHandlers s2c 10 0).2.2 = MoveRes.swipeRet ∧
    signalsSuppression (handleMove allHandlers s2c 10 0).2.2 = false := by
  decide

/-- C3 (amended): `handleEnd` invokes `onDoubleTap` exactly when the
gesture ending now is active and tap-eligible (`hasActuallyDragged`
false), the handler is registered, and `0 < now - lastTapTime <
TAP_DELAY` — where `lastTapTime` is the end time of the previous
completed gesture of either kind, because the drag path also records it;
so a drag completing immediately before a quick tap does produce a
double-tap. -/
theorem C3_doubleTap_iff (h : Handlers) (s : GestureState)
    (cx cy cX now : Int) :
    Callback.doubleTap ∈ (handleEnd h s cx cy cX now).2.1 ↔
      (s.isDragging = true ∧ s.hasActuallyDragged = false ∧
       0 < now - s.lastTapTime ∧ now - s.lastTapTime < TAP_DELAY ∧
       h.onDoubleTap = true) := by
  by_cases h1 : s.isDragging = false
  · simp [handleEnd, h1]
  · have h1x : s.isDragging = true := by simpa using h1
    by_cases h2 : s.hasActuallyDragged = true
    · by_cases h3 : DRAG_THRESHOLD < |cx - s.startX| ∧ h.onDrag = true
      all_goals simp [handleEnd, h1x, h2, h3]
    · have h2x : s.hasActuallyDragged = false := by simpa using h2
      by_cases h4 : now - s.lastTapTime < TAP_DELAY ∧ 0 < now - s.lastTapTime
      · by_cases h5 : h.onDoubleTap = true
        all_goals simp [handleEnd, h1x, h2x, h4, h4.1, h4.2, h5]
      · rw [handleEnd_singleTap h s cx cy cX now h1x h2x h4]
        constructor
        · intro hmem
          simp at hmem
        · rintro ⟨-, -, hA, hB, -⟩
          exact absurd ⟨hB, hA⟩ h4

/-- C3 counterexample: a drag (movement beyond the detection threshold,
ending at 1020 and classified `drag`) followed by a quick clean tap at
1120 — 100 ms later, inside the 300 ms window — produces `onDoubleTap`,
because the drag path of `handleEnd` also records `lastTapTime`. -/
theorem C3_counterexample :
    (run allHandlers initialState
      [(1000, GEvent.start 0 0), (1010, GEvent.move 0 10)]).1.hasActuallyDragged
      = true ∧
    (run allHandlers initialState
      [(1000, GEvent.start 0 0), (1010, GEvent.move 0 10),
       (1020, GEvent.finish 0 10 7), (1100, GEvent.start 0 0),
       (1120, GEvent.finish 0 0 7), (2000, GEvent.idle)]).2 =
      [Callback.doubleTap] := by decide

/-- C5 (amended): `handleMove` completes its state mutations (accumulator
reset and `lastX` update) before invoking `onSwipe`, so a throwing
`onSwipe` leaves that part of the transition complete; but the drag path
of `handleEnd` invokes `onDrag` before `reset()`, so a throwing `onDrag`
leaves the recognizer state exactly as it was — not reset, any pending
tap timer uncancelled — and in both cases the exception propagates into
the event-dispatch path (there is no `try`/`catch` in the handler). -/
theorem C5_callback_order :
    (∀ (h : Handlers) (s : GestureState) (cx cy : Int),
        s.isDragging = true → |cy - s.startY| < |cx - s.startX| →
        SWIPE_THRESHOLD ≤ |s.accumulatedDistance + (cx - s.lastX)| →
        h.onSwipe = true →
        (handleMoveThrow h true s cx cy).1.accumulatedDistance = 0 ∧
        (handleMoveThrow h true s cx cy).1.lastX = cx ∧
        (handleMoveThrow h true s cx cy).2.2 = true) ∧
    (∀ (h : Handlers) (s : GestureState) (cx cy cX now : Int),
        s.isDragging = true → s.hasActuallyDragged = true →
        DRAG_THRESHOLD < |cx - s.startX| → h.onDrag = true →
        handleEndThrow h true s cx cy cX now =
          (s, [Callback.drag (if 0 < cx - s.startX then -1 else 1)],
           true)) := by
  constructor
  · intro h s cx cy hD hH hT hS
    by_cases h3 : MOVEMENT_DETECTION_THRESHOLD < |cx - s.startX| ∨
        MOVEMENT_DETECTION_THRESHOLD < |cy - s.startY|
    all_goals simp [handleMoveThrow, hD, hH, hT, hS, h3]
  · intro h s cx cy cX now hD hM hBig hDr
    simp [handleEndThrow, hD, hM, hBig, hDr]

/-- Gesture state used for the C5 counterexample and witness: an active,
moved gesture with a pending tap timer outstanding, 60 px right of its
start. -/
def s5e : GestureState :=
  { startX := 0, startY := 0, lastX := 60, accumulatedDistance := 0,
    isDragging := true, hasActuallyDragged := true, lastTapTime := 0,
    tapTimeout := some { fireAt := 500, clientX := 9 } }

/-- Gesture state used for the C5 witness: an active clean gesture with
15 px accumulated toward a swipe. -/
def s5m : GestureState :=
  { startX := 0, startY := 100, lastX := 0, accumulatedDistance := 15,
    isDragging := true, hasActuallyDragged := false, lastTapTime := 0,
    tapTimeout := none }

/-- C5 counterexample: ending `s5e` (net displacement 60 > 50) with a
throwing `onDrag` propagates the exception, leaves `isDragging` true and
leaves the pending tap timer uncancelled — refuting the claim that the
state transition completes before or independently of the callback and
that the exception is not propagated. -/
theorem C5_counterexample :
    (handleEndThrow allHandlers true s5e 60 0 9 1000).2.2 = true ∧
    (handleEndThrow allHandlers true s5e 60 0 9 1000).1.isDragging = true ∧
    (handleEndThrow allHandlers true s5e 60 0 9 1000).1.tapTimeout =
      some { fireAt := 500, clientX := 9 } ∧
    (handleEndThrow allHandlers true s5e 60 0 9 1000).2.1 =
      [Callback.drag (-1)] := by decide

/-- C5 witness: the amended ordering facts at concrete inputs — a
swipe-firing move of `s5m` with a throwing `onSwipe` still reaches the
reset accumulator, and the drag end of `s5e` with a throwing `onDrag`
leaves the state untouched. -/
theorem C5_callback_order_witness :
    (SWIPE_THRESHOLD ≤ |s5m.accumulatedDistance + ((25 : Int) - s5m.lastX)| ∧
     (handleMoveThrow allHandlers true s5m 25 100).1.accumulatedDistance = 0 ∧
     (handleMoveThrow allHandlers true s5m 25 100).1.lastX = 25 ∧
     (handleMoveThrow allHandlers true s5m 25 100).2.2 = true) ∧
    (DRAG_THRESHOLD < |(60 : Int) - s5e.startX| ∧
     handleEndThrow allHandlers true s5e 60 0 9 1000 =
       (s5e, [Callback.drag (if 0 < (60 : Int) - s5e.startX then -1 else 1)],
        true)) :=
  ⟨⟨by decide,
    C5_callback_order.1 allHandlers s5m 25 100 rfl (by decide) (by decide) rfl⟩,
   ⟨by decide,
    C5_callback_order.2 allHandlers s5e 60 0 9 1000 rfl rfl (by decide) rfl⟩⟩

/-- C7: during an active, horizontally dominant move, a swipe fires
exactly when the accumulated horizontal distance (previous accumulator
plus this sample's displacement from `lastX`) reaches `SWIPE_THRESHOLD`;
the accumulator is then reset to 0, and the direction argument is the
negation of the sign of the accumulated distance — rightward (positive)
motion yields `-1`.  Below the threshold no callback fires and the
accumulator holds the running sum. -/
theorem C7_swipe_step (h : Handlers) (s : GestureState) (cx cy : Int)
    (hS : h.onSwipe = true) (hD : s.isDragging = true)
    (hH : |cy - s.startY| < |cx - s.startX|) :
    (handleMove h s cx cy).2.1 =
      (if SWIPE_THRESHOLD ≤ |s.accumulatedDistance + (cx - s.lastX)| then
        [Callback.swipe
          (if 0 < s.accumulatedDistance + (cx - s.lastX) then -1 else 1)]
      else []) ∧
    (handleMove h s cx cy).1.accumulatedDistance =
      (if SWIPE_THRESHOLD ≤ |s.accumulatedDistance + (cx - s.lastX)| then 0
       else s.accumulatedDistance + (cx - s.lastX)) := by
  by_cases h3 : MOVEMENT_DETECTION_THRESHOLD < |cx - s.startX| ∨
      MOVEMENT_DETECTION_THRESHOLD < |cy - s.startY|
  all_goals by_cases h4 : SWIPE_THRESHOLD ≤ |s.accumulatedDistance + (cx - s.lastX)|
  all_goals simp [handleMove, hS, hD, hH, h3, h4]

/-- Gesture state used to witness C7: an active gesture with 12 px
accumulated, whose next sample adds 20 px rightward. -/
def s7 : GestureState :=
  { startX := 0, startY := 0, lastX := 10, accumulatedDistance := 12,
    isDragging := true, hasActuallyDragged := false, lastTapTime := 0,
    tapTimeout := none }

/-- C7 witness: moving `s7` to x = 30 (accumulated 32 ≥ 20) fires one
`onSwipe(-1)` and resets the accumulator. -/
theorem C7_swipe_step_witness :
    (|(1 : Int) - s7.startY| < |(30 : Int) - s7.startX|) ∧
    ((handleMove allHandlers s7 30 1).2.1 =
      (if SWIPE_THRESHOLD ≤ |s7.accumulatedDistance + ((30 : Int) - s7.lastX)| then
        [Callback.swipe
          (if 0 < s7.accumulatedDistance + ((30 : Int) - s7.lastX) then -1 else 1)]
      else []) ∧
    (handleMove allHandlers s7 30 1).1.accumulatedDistance =
      (if SWIPE_THRESHOLD ≤ |s7.accumulatedDistance + ((30 : Int) - s7.lastX)| then 0
       else s7.accumulatedDistance + ((30 : Int) - s7.lastX))) :=
  ⟨by decide, C7_swipe_step allHandlers s7 30 1 rfl rfl (by decide)⟩


/-- C8: two clean taps — no movement, with the second gesture ending
150 ms after the first (inside the 300 ms `TAP_DELAY` window) — produce
exactly one `onDoubleTap` and no `onTap`: the first tap's deferred timer
(due 300 ms after the first end) is cancelled by the double-tap path
before it can fire, and nothing is pending afterwards, whatever idle time
`T` follows.  `TAP_DELAY ≤ t1` keeps the first tap itself outside the
double-tap window of the initial `lastTapTime = 0`. -/
theorem C8_quick_double_tap (t1 T x0 y0 cX1 x1 y1 cX2 : Int)
    (ht : TAP_DELAY ≤ t1) :
    (run allHandlers initialState
      [(t1, GEvent.start x0 y0), (t1, GEvent.finish x0 y0 cX1),
       (t1 + 100, GEvent.start x1 y1), (t1 + 150, GEvent.finish x1 y1 cX2),
       (T, GEvent.idle)]).2 = [Callback.doubleTap] := by
  have ht1 : (300 : Int) ≤ t1 := ht
  have hFar : ¬(t1 - (0 : Int) < TAP_DELAY ∧ 0 < t1 - (0 : Int)) := by
    show ¬(t1 - (0 : Int) < 300 ∧ 0 < t1 - (0 : Int))
    omega
  have e2 : step allHandlers
      { startX := x0, startY := y0, lastX := x0, accumulatedDistance := 0,
        isDragging := true, hasActuallyDragged := false, lastTapTime := 0,
        tapTimeout := none } t1 (GEvent.finish x0 y0 cX1) =
      ({ startX := x0, startY := y0, lastX := x0, accumulatedDistance := 0,
         isDragging := false, hasActuallyDragged := false, lastTapTime := t1,
         tapTimeout := some { fireAt := t1 + TAP_DELAY, clientX := cX1 } },
       []) := by
    simp only [step]
    rw [fireDue_none allHandlers _ t1 rfl]
    simp [handleEnd_singleTap allHandlers
      { startX := x0, startY := y0, lastX := x0, accumulatedDistance := 0,
        isDragging := true, hasActuallyDragged := false, lastTapTime := 0,
        tapTimeout := none } x0 y0 cX1 t1 rfl rfl hFar]
  have e3 : step allHandlers
      { startX := x0, startY := y0, lastX := x0, accumulatedDistance := 0,
        isDragging := false, hasActuallyDragged := false, lastTapTime := t1,
        tapTimeout := some { fireAt := t1 + TAP_DELAY, clientX := cX1 } }
      (t1 + 100) (GEvent.start x1 y1) =
      ({ startX := x1, startY := y1, lastX := x1, accumulatedDistance := 0,
         isDragging := true, hasActuallyDragged := false, lastTapTime := t1,
         tapTimeout := some { fireAt := t1 + TAP_DELAY, clientX := cX1 } },
       []) := by
    simp only [step]
    rw [fireDue_notDue allHandlers _ (t1 + 100)
        { fireAt := t1 + TAP_DELAY, clientX := cX1 } rfl
        (by show t1 + 100 < t1 + 300; omega)]
    rfl
  have e4 : step allHandlers
      { startX := x1, startY := y1, lastX := x1, accumulatedDistance := 0,
        isDragging := true, hasActuallyDragged := false, lastTapTime := t1,
        tapTimeout := some { fireAt := t1 + TAP_DELAY, clientX := cX1 } }
      (t1 + 150) (GEvent.finish x1 y1 cX2) =
      ({ initialState with lastTapTime := t1 + 150 }, [Callback.doubleTap]) := by
    simp only [step]
    rw [fireDue_notDue allHandlers _ (t1 + 150)
        { fireAt := t1 + TAP_DELAY, clientX := cX1 } rfl
        (by show t1 + 150 < t1 + 300; omega)]
    simp only [handleEnd_doubleTap allHandlers
      { startX := x1, startY := y1, lastX := x1, accumulatedDistance := 0,
        isDragging := true, hasActuallyDragged := false, lastTapTime := t1,
        tapTimeout := some { fireAt := t1 + TAP_DELAY, clientX := cX1 } } x1 y1 cX2 (t1 + 150)
      rfl rfl (by show (0 : Int) < t1 + 150 - t1; omega)
      (by show t1 + 150 - t1 < (300 : Int); omega)]
    simp [allHandlers, initialState]
  have e1 : step allHandlers initialState t1 (GEvent.start x0 y0) =
      ({ startX := x0, startY := y0, lastX := x0, accumulatedDistance := 0,
         isDragging := true, hasActuallyDragged := false, lastTapTime := 0,
         tapTimeout := none }, []) := rfl
  have e5 : step allHandlers { initialState with lastTapTime := t1 + 150 } T
      GEvent.idle = ({ initialState with lastTapTime := t1 + 150 }, []) := by
    simp only [step]
    rw [fireDue_none allHandlers { initialState with lastTapTime := t1 + 150 } T rfl]
  simp only [run, e1, e2, e3, e4, e5]
  simp

/-- C8 witness: the double-tap scenario at concrete times — first tap
ends at 1000, second at 1150, idle until 5000: exactly one
`onDoubleTap`, no `onTap`. -/
theorem C8_quick_double_tap_witness :
    TAP_DELAY ≤ (1000 : Int) ∧
    (run allHandlers initialState
      [(1000, GEvent.start 0 0), (1000, GEvent.finish 0 0 7),
       (1000 + 100, GEvent.start 0 0), (1000 + 150, GEvent.finish 0 0 8),
       (5000, GEvent.idle)]).2 = [Callback.doubleTap] :=
  ⟨by decide, C8_quick_double_tap 1000 5000 0 0 7 0 0 8 (by decide)⟩

/-- C9: a sequence of move samples that is vertically dominant throughout
(|deltaY| > |deltaX| relative to the gesture start at every sample) never
fires a swipe — indeed invokes no callback at all — and never changes the
accumulator; applied to every prefix of the sequence this shows
`accumulatedDistance` never moves off its starting value during such a
sequence. -/
theorem C9_vertical_moves_no_swipe (h : Handlers) (s : GestureState)
    (ms : List (Int × Int))
    (hV : ∀ p ∈ ms, |p.1 - s.startX| < |p.2 - s.startY|) :
    (movesRun h s ms).2 = [] ∧
    (movesRun h s ms).1.accumulatedDistance = s.accumulatedDistance := by
  induction ms generalizing s with
  | nil => simp [movesRun]
  | cons p rest ih =>
      obtain ⟨x, y⟩ := p
      have hp : |x - s.startX| ≤ |y - s.startY| :=
        le_of_lt (hV (x, y) (by simp))
      have hm := handleMove_vertical h s x y hp
      have hV2 : ∀ q ∈ rest, |q.1 - (handleMove h s x y).1.startX| <
          |q.2 - (handleMove h s x y).1.startY| := by
        intro q hq
        rw [hm.2.1, hm.2.2.1]
        exact hV q (List.mem_cons_of_mem _ hq)
      have ihr := ih (handleMove h s x y).1 hV2
      simp only [movesRun]
      constructor
      · rw [hm.1]
        simpa using ihr.1
      · rw [ihr.2, hm.2.2.2.1]

/-- Gesture state used to witness C9: an active gesture started at the
origin with an empty accumulator. -/
def s9 : GestureState :=
  { startX := 0, startY := 0, lastX := 0, accumulatedDistance := 0,
    isDragging := true, hasActuallyDragged := false, lastTapTime := 0,
    tapTimeout := none }

/-- Move samples used to witness C9: each sample is vertically dominant
relative to the start of `s9`. -/
def ms9 : List (Int × Int) := [(1, 10), (3, 20), (-2, 9), (4, -30)]

/-- C9 witness: running the vertically dominant samples `ms9` from `s9`
fires nothing and leaves the accumulator at 0. -/
theorem C9_vertical_moves_no_swipe_witness :
    (∀ p ∈ ms9, |p.1 - s9.startX| < |p.2 - s9.startY|) ∧
    ((movesRun allHandlers s9 ms9).2 = [] ∧
     (movesRun allHandlers s9 ms9).1.accumulatedDistance =
       s9.accumulatedDistance) :=
  ⟨by decide, C9_vertical_moves_no_swipe allHandlers s9 ms9 (by decide)⟩

end BibleNav
